import Mathlib

/-!
Shallow embedding of `src/tools/audit.py` (class `SEOTechnicalAnalyzer`) and
the part of `src/app.py` that calls it.

Modelling conventions:
* A parsed BeautifulSoup document is abstracted into `Document`, recording
  exactly the observations the analyzer makes of the soup (`soup.title.string`,
  the description meta lookup, the heading elements in
  document order, the `img` elements with their attributes, the canonical
  link, the robots/googlebot metas, the count of `application/ld+json`
  scripts, `str(soup)` and the viewport meta).  A bs4 `Tag` is always truthy
  (`Tag.__bool__` returns `True`), so `if not tag:` in the source is exactly
  "`find` returned `None`", which we model with `Option`.
* Python string operations are embedded explicitly: `needle in hay` is `pyIn`
  (case-sensitive substring test), `s.startswith(p)` is `pyStartsWith`,
  `s.isdigit()` is `pyIsDigit` (false on the empty string), `int(s)` on a
  digit string is `decVal`, `s.lower()` is `pyLower`.
* The network fetch is the only external input of the analyzer; it is passed to
  `analyze` explicitly as a `FetchOutcome`.  An uncaught Python exception
  escaping `analyze` (only `requests.RequestException` is caught there) is
  modelled by the `AnalyzeResult.crash` constructor.
* `scan_date` (`datetime.now().isoformat()`) is the one nondeterministic
  report field; the embedded `Report` omits it and models every other field.
-/

/-- Character-list prefix test (`listPrefixOf needle hay`). -/
def listPrefixOf : List Char → List Char → Bool
  | [], _ => true
  | _ :: _, [] => false
  | a :: as, b :: bs => a == b && listPrefixOf as bs

/-- Python `needle in hay` on the underlying character lists. -/
def listContains (needle : List Char) : List Char → Bool
  | [] => listPrefixOf needle []
  | c :: t => listPrefixOf needle (c :: t) || listContains needle t

/-- The Python `needle in hay` substring test (case-sensitive, as in Python). -/
def pyIn (needle hay : String) : Bool :=
  listContains needle.data hay.data

/-- The Python `s.startswith(pre)`. -/
def pyStartsWith (s pre : String) : Bool :=
  listPrefixOf pre.data s.data

/-- The Python `s.isdigit()` restricted to ASCII digits; false on `""`. -/
def pyIsDigit (s : String) : Bool :=
  !s.data.isEmpty && s.data.all Char.isDigit

/-- The Python `s.lower()` (ASCII range, which covers the needles in use). -/
def pyLower (s : String) : String :=
  String.mk (s.data.map Char.toLower)

/-- Python `int(s)` for a decimal digit string. -/
def decVal (s : String) : Nat :=
  s.data.foldl (fun a c => a * 10 + (c.toNat - 48)) 0

/-- One issue or warning dict appended by the analyzer
(`category` / `issue` / `impact` / `recommendation` keys). -/
structure Finding where
  category : String
  issue : String
  impact : String
  recommendation : String
deriving DecidableEq, Repr

/-- One info dict appended by `_analyze_schema` (`category` / `message` keys). -/
structure InfoNote where
  category : String
  message : String
deriving DecidableEq, Repr

/-- The attributes of one `<img>` element as the analyzer reads them
(`img.get("src")`, `img.get("alt")`, `img.get("width")`, `img.get("height")`). -/
structure Img where
  src : Option String
  alt : Option String
  width : Option String
  height : Option String
deriving DecidableEq, Repr

/-- The observations `SEOTechnicalAnalyzer` makes of the parsed page.

* `title`: `soup.title.string` (`none` when there is no `<title>` element or
  it has no string; bs4 never yields the empty string here, but the model
  keeps Python truthiness: `some ""` is also treated as missing).
* `metaDescription`: outer `Option` is presence of
  the `soup.find` lookup of the description meta; inner `Option` is the
  `content` attribute of that element.
* `headings`: the levels (1–6) of the page `h1`…`h6` elements in document
  order; each per-level `soup.find_all` call is a level filter of this list.
* `canonical`: the `soup.find` lookup of the canonical link with its `href`.
* `robotsMeta` / `googlebotMeta`: the two meta lookups of `_analyze_robots`,
  each with its `content` attribute.
* `ldJsonCount`: the length of the `soup.find_all` result for ld+json scripts.
* `serialized`: `str(self.soup)`.
* `viewport`: whether the `soup.find` lookup of the viewport meta found a tag. -/
structure Document where
  title : Option String
  metaDescription : Option (Option String)
  headings : List Nat
  images : List Img
  canonical : Option (Option String)
  robotsMeta : Option (Option String)
  googlebotMeta : Option (Option String)
  ldJsonCount : Nat
  serialized : String
  viewport : Bool
deriving DecidableEq, Repr

/-! The `impact` strings of every dict the analyzer ever appends to
`self.issues`, verbatim from the source. -/

def impactTitleMissing : String :=
  "Critical - Title tags are crucial for SEO and user experience"

def impactTitleShort : String :=
  "High - Short titles may not be descriptive enough for search engines and users"

def impactTitleLong : String :=
  "Medium - Long titles will be truncated in search results"

def impactMetaDescMissing : String :=
  "High - Meta descriptions are important for CTR in search results"

def impactH1Missing : String :=
  "High - H1 is a crucial signal for page topic and structure"

def impactAltMissing : String :=
  "High - Alt text is crucial for accessibility and image SEO"

def impactLargeImages : String :=
  "Medium - Large images can slow down page load times"

def impactCanonicalMissing : String :=
  "High - Canonical tags help prevent duplicate content issues"

def impactNoindex : String :=
  "Critical - Page will not be indexed by search engines"

def impactViewportMissing : String :=
  "High - Page may not be mobile-friendly"

def impactNoHttps : String :=
  "High - HTTPS is a ranking factor and security requirement"

/-- All `impact` strings that can reach `self.issues` in one analysis. -/
def issueImpacts : List String :=
  [impactTitleMissing, impactTitleShort, impactTitleLong, impactMetaDescMissing,
   impactH1Missing, impactAltMissing, impactLargeImages, impactCanonicalMissing,
   impactNoindex, impactViewportMissing, impactNoHttps]

/-! The finding dicts themselves, verbatim from the source. -/

def titleMissingFinding : Finding :=
  { category := "Title Tag", issue := "Missing title tag",
    impact := impactTitleMissing,
    recommendation := "Add a descriptive title tag between 30-60 characters" }

def titleShortFinding (t : String) : Finding :=
  { category := "Title Tag",
    issue := "Title too short (" ++ toString t.length ++ " characters): " ++ t,
    impact := impactTitleShort,
    recommendation := "Expand title to be between 30-60 characters" }

def titleLongFinding (t : String) : Finding :=
  { category := "Title Tag",
    issue := "Title too long (" ++ toString t.length ++ " characters): " ++ t,
    impact := impactTitleLong,
    recommendation := "Reduce title length to be between 30-60 characters" }

def metaDescMissingFinding : Finding :=
  { category := "Meta Description", issue := "Missing meta description",
    impact := impactMetaDescMissing,
    recommendation := "Add a compelling meta description between 70-155 characters" }

def descShortFinding (n : Nat) : Finding :=
  { category := "Meta Description",
    issue := "Description too short (" ++ toString n ++ " characters)",
    impact := "Medium - Short descriptions may not provide enough context",
    recommendation := "Expand description to be between 70-155 characters" }

def descLongFinding (n : Nat) : Finding :=
  { category := "Meta Description",
    issue := "Description too long (" ++ toString n ++ " characters)",
    impact := "Low - Long descriptions will be truncated in search results",
    recommendation := "Reduce description length to be between 70-155 characters" }

def h1MissingFinding : Finding :=
  { category := "Heading Structure", issue := "Missing H1 heading",
    impact := impactH1Missing,
    recommendation := "Add a single, descriptive H1 heading" }

def multiH1Finding (n : Nat) : Finding :=
  { category := "Heading Structure",
    issue := "Multiple H1 headings found (" ++ toString n ++ ")",
    impact := "Medium - Multiple H1s can confuse page hierarchy",
    recommendation := "Use only one H1 heading per page" }

/-- The impact string shared by all skipped-heading-level warnings. -/
def skipImpact : String :=
  "Medium - Improper heading hierarchy affects accessibility and SEO"

def skipFinding (prev cur : Nat) : Finding :=
  { category := "Heading Structure",
    issue := "Skipped heading level (from H" ++ toString prev ++ " to H" ++ toString cur ++ ")",
    impact := skipImpact,
    recommendation := "Maintain proper heading hierarchy (H1 → H2 → H3)" }

def altMissingFinding (n : Nat) : Finding :=
  { category := "Image Optimization",
    issue := "Missing alt text on " ++ toString n ++ " images",
    impact := impactAltMissing,
    recommendation := "Add descriptive alt text to all images" }

def largeImagesFinding (n : Nat) : Finding :=
  { category := "Image Optimization",
    issue := "Found " ++ toString n ++ " images exceeding 1000px in width or height",
    impact := impactLargeImages,
    recommendation := "Optimize large images by resizing or compressing them" }

def canonicalMissingFinding : Finding :=
  { category := "Canonical Tag", issue := "Missing canonical tag",
    impact := impactCanonicalMissing,
    recommendation := "Add a canonical tag pointing to the preferred URL" }

def canonicalDiffersFinding (canonicalUrl : String) : Finding :=
  { category := "Canonical Tag",
    issue := "Canonical URL (" ++ canonicalUrl ++ ") differs from current URL",
    impact := "Medium - May indicate content duplication or incorrect configuration",
    recommendation := "Verify canonical URL is correct" }

def robotsMissingFinding : Finding :=
  { category := "Robots Meta", issue := "Missing robots meta tag",
    impact := "Low - Default behavior allows indexing and following",
    recommendation := "Consider adding robots meta tag for explicit control" }

def noindexFinding : Finding :=
  { category := "Robots Meta", issue := "Page is set to noindex",
    impact := impactNoindex,
    recommendation := "Remove noindex if page should be indexed" }

def nofollowFinding : Finding :=
  { category := "Robots Meta", issue := "Page is set to nofollow",
    impact := "High - Links on page won\x27t pass authority",
    recommendation := "Remove nofollow if links should be followed" }

def schemaWarnFinding : Finding :=
  { category := "Structured Data", issue := "No schema.org structured data found",
    impact := "Medium - Structured data helps search engines understand content",
    recommendation := "Add relevant schema.org markup for your content type" }

def schemaInfoNote (n : Nat) : InfoNote :=
  { category := "Structured Data",
    message := "Found " ++ toString n ++ " schema.org scripts" }

/-- Decimal rendering of `page_size / 1000` to one decimal place
(approximates the Python one-decimal float formatting of page_size/1000; no claim
reads this text). -/
def kiloString (n : Nat) : String :=
  toString ((n + 50) / 1000) ++ "." ++ toString ((n + 50) / 100 % 10)

def largePageFinding (n : Nat) : Finding :=
  { category := "Performance",
    issue := "Large page size (" ++ kiloString n ++ "KB)",
    impact := "Medium - Large pages load slower and may affect Core Web Vitals",
    recommendation := "Optimize page size by minimizing HTML, CSS, and JavaScript" }

def viewportMissingFinding : Finding :=
  { category := "Mobile Optimization", issue := "Missing viewport meta tag",
    impact := impactViewportMissing,
    recommendation := "Add proper viewport meta tag for mobile devices" }

def noHttpsFinding : Finding :=
  { category := "Security", issue := "Not using HTTPS",
    impact := impactNoHttps,
    recommendation := "Implement SSL/HTTPS on your website" }

/-! The inspectors. -/

/-- Method `_analyze_title`: issues appended.  `if not title` in Python treats both
`None` and the empty string as missing. -/
def analyzeTitle (d : Document) : List Finding :=
  match d.title with
  | none => [titleMissingFinding]
  | some t =>
      if t = "" then [titleMissingFinding]
      else if t.length < 30 then [titleShortFinding t]
      else if t.length > 60 then [titleLongFinding t]
      else []

/-- Method `_analyze_meta_description`: (issues, warnings) appended.  The length
branches run only under `elif meta_desc.get("content"):`, so an absent or
empty `content` attribute appends nothing. -/
def analyzeMetaDescription (d : Document) : List Finding × List Finding :=
  match d.metaDescription with
  | none => ([metaDescMissingFinding], [])
  | some contentAttr =>
      match contentAttr with
      | none => ([], [])
      | some c =>
          if c = "" then ([], [])
          else if c.length < 70 then ([], [descShortFinding c.length])
          else if c.length > 155 then ([], [descLongFinding c.length])
          else ([], [])

/-- The `for h_tag, text in headings:` loop of `_analyze_headings`:
one warning per step where `current_level - prev_level > 1`. -/
def headingScan (prev : Nat) : List Nat → List Finding
  | [] => []
  | cur :: rest =>
      (if prev + 1 < cur then [skipFinding prev cur] else []) ++ headingScan cur rest

/-- The order in which `_analyze_headings` collects headings:
the loop over `i in range(1, 7)` of per-level `soup.find_all` calls groups them by level
(all h1s in document order, then all h2s, …), not overall document order. -/
def groupedHeadings (hs : List Nat) : List Nat :=
  (List.range' 1 6).flatMap fun i => hs.filter fun l => l = i

/-- Method `_analyze_headings`: (issues, warnings) appended. -/
def analyzeHeadings (d : Document) : List Finding × List Finding :=
  let hs := groupedHeadings d.headings
  let missing := if hs.all fun l => l ≠ 1 then [h1MissingFinding] else []
  let h1Count := (hs.filter fun l => l = 1).length
  let multi := if 1 < h1Count then [multiH1Finding h1Count] else []
  (missing, multi ++ headingScan 0 hs)

/-- Python truthiness of `img.get("alt")`: absent or empty. -/
def imgMissingAlt (im : Img) : Bool :=
  match im.alt with
  | none => true
  | some a => a = ""

/-- The oversized test of `_analyze_images`: both attributes present,
both `isdigit`, and either `int` value strictly above 1000. -/
def imgLarge (im : Img) : Bool :=
  match im.width, im.height with
  | some w, some h =>
      pyIsDigit w && pyIsDigit h && (1000 < decVal w || 1000 < decVal h)
  | _, _ => false

/-- Method `_analyze_images`: issues appended. -/
def analyzeImages (d : Document) : List Finding :=
  let missingAlt := (d.images.filter fun im => imgMissingAlt im).length
  let large := (d.images.filter fun im => imgLarge im).length
  (if 0 < missingAlt then [altMissingFinding missingAlt] else []) ++
    (if 0 < large then [largeImagesFinding large] else [])

/-- Method `_analyze_canonical`: (issues, warnings) appended, or `none` for the
uncaught `AttributeError`.  The source reads

    canonical = self.soup.find of the canonical link
    if canonical:            # tag found (a bs4 Tag is always truthy)
        self.issues.append(... "Missing canonical tag" ...)
    elif canonical.get("href"):   # only reached when canonical is None

so when the canonical link IS present the "Missing canonical tag" issue is
appended regardless of its `href` (the `canonicalDiffersFinding` branch is
unreachable dead code), and when it is absent `None.get("href")` raises
`AttributeError`. -/
def analyzeCanonical (d : Document) : Option (List Finding × List Finding) :=
  match d.canonical with
  | some _ => some ([canonicalMissingFinding], [])
  | none => none

/-- Method `_analyze_robots`: (issues, warnings) appended.  `robots_meta` is
the `find` of the robots meta `or` the `find` of the googlebot meta;
its `content` defaults to `""` and is lowercased before the substring tests. -/
def analyzeRobots (d : Document) : List Finding × List Finding :=
  match d.robotsMeta.or d.googlebotMeta with
  | none => ([], [robotsMissingFinding])
  | some contentAttr =>
      let content := pyLower (contentAttr.getD "")
      ((if pyIn "noindex" content then [noindexFinding] else []),
       (if pyIn "nofollow" content then [nofollowFinding] else []))

/-- Method `_analyze_schema`: (warnings, info) appended.  Note the substring test
`"schema.org" in str(self.soup)` is case-sensitive. -/
def analyzeSchema (d : Document) : List Finding × List InfoNote :=
  if !(pyIn "schema.org" d.serialized) && d.ldJsonCount = 0 then
    ([schemaWarnFinding], [])
  else
    ([], [schemaInfoNote d.ldJsonCount])

/-- Method `_analyze_performance`: warnings appended; fires when
`len(str(self.soup)) > 100000`. -/
def analyzePerformance (d : Document) : List Finding :=
  if 100000 < d.serialized.length then [largePageFinding d.serialized.length]
  else []

/-- Method `_analyze_mobile_friendliness`: issues appended. -/
def analyzeMobile (d : Document) : List Finding :=
  if d.viewport then [] else [viewportMissingFinding]

/-- Method `_analyze_ssl`: issues appended; fires when the URL does not start
with `"https"`. -/
def analyzeSsl (url : String) : List Finding :=
  if pyStartsWith url "https" then [] else [noHttpsFinding]

/-- The inspector pass of `analyze` on a fetched document: the accumulated
(issues, warnings, info) in append order, or `none` when `_analyze_canonical`
raises.  The findings appended before the canonical crash die with the
request, so a `none` result carries nothing. -/
def runInspectors (url : String) (d : Document) :
    Option (List Finding × List Finding × List InfoNote) :=
  match analyzeCanonical d with
  | none => none
  | some canon =>
      some (analyzeTitle d ++ (analyzeMetaDescription d).1 ++ (analyzeHeadings d).1 ++
              analyzeImages d ++ canon.1 ++ (analyzeRobots d).1 ++ analyzeMobile d ++
              analyzeSsl url,
            (analyzeMetaDescription d).2 ++ (analyzeHeadings d).2 ++ canon.2 ++
              (analyzeRobots d).2 ++ (analyzeSchema d).1 ++ analyzePerformance d,
            (analyzeSchema d).2)

/-- The report dict built by `_generate_report`, minus the nondeterministic
`scan_date` timestamp. -/
structure Report where
  report : String
  url : String
  critical_issues : List Finding
  high_impact_issues : List Finding
  warnings : List Finding
  info : List InfoNote
  total_issues : Nat
  total_warnings : Nat
deriving DecidableEq, Repr

/-- Method `_generate_report` over the session accumulators: the two issue views are
substring filters on the `impact` strings (`"Critical" in issue.get("impact", "")`). -/
def generateReport (url : String) (issues warnings : List Finding)
    (info : List InfoNote) : Report :=
  { report := "SEO Technical Analysis Report for " ++ url ++ " ",
    url := url,
    critical_issues := issues.filter fun i => pyIn "Critical" i.impact,
    high_impact_issues := issues.filter fun i => pyIn "High" i.impact,
    warnings := warnings,
    info := info,
    total_issues := issues.length,
    total_warnings := warnings.length }

/-- The outcome of the `requests.get` + `raise_for_status` fetch, the
only external input of the analyzer: either the parsed page or a
`requests.RequestException` whose text is `msg`. -/
inductive FetchOutcome where
  | success (d : Document)
  | failure (msg : String)
deriving DecidableEq, Repr

/-- What a call to `SEOTechnicalAnalyzer(url).analyze()` can produce:
a report, the error dict (whose only key is `error`), or an uncaught
exception escaping the method (`crash`). -/
inductive AnalyzeResult where
  | ok (r : Report)
  | error (msg : String)
  | crash
deriving DecidableEq, Repr

/-- Method call `SEOTechnicalAnalyzer(url).analyze()` with the fetch outcome made
explicit: a fresh session (empty accumulators, as `__init__` creates them)
is analyzed once. -/
def analyze (url : String) (fetch : FetchOutcome) : AnalyzeResult :=
  match fetch with
  | .failure msg => .error ("Failed to fetch URL: " ++ msg)
  | .success d =>
      match runInspectors url d with
      | none => .crash
      | some (issues, warnings, info) => .ok (generateReport url issues warnings info)

/-- The "severity" of a finding in the sense of the spec: the tier label that the
source embeds at the front of the `impact` sentence ("Critical - …"). -/
def severityIs (tier : String) (f : Finding) : Bool :=
  pyStartsWith f.impact (tier ++ " - ")

/-- A document on which every `find` fails: no title, no metas, no headings,
no images, no canonical link, no scripts, empty serialization. -/
def emptyDoc : Document :=
  { title := none, metaDescription := none, headings := [], images := [],
    canonical := none, robotsMeta := none, googlebotMeta := none,
    ldJsonCount := 0, serialized := "", viewport := false }

/-! Concrete documents used by the claim theorems. -/

/-- A page whose canonical link has `href` exactly the analyzed URL. -/
def canonicalIdenticalDoc : Document :=
  { emptyDoc with canonical := some (some "https://example.com/") }

/-- C1: the claim says the Canonical inspector appends one High issue when
the canonical link is absent, one Medium warning when its `href` differs
from the target URL, and nothing when the `href` is identical.  The code
does the opposite of all three: with the canonical link present (here with
`href` identical to the target URL `https://example.com/`) it appends the
High "Missing canonical tag" issue, and with the link absent it raises
`AttributeError` (modelled as `none`) instead of appending the issue. -/
theorem canonical_inspector_inverted :
    analyzeCanonical canonicalIdenticalDoc = some ([canonicalMissingFinding], []) ∧
      severityIs "High" canonicalMissingFinding = true ∧
      canonicalIdenticalDoc.canonical = some (some "https://example.com/") ∧
      analyzeCanonical emptyDoc = none := by
  decide

/-- C2: the claim says analysis of any fetched document runs to completion and
returns a report.  It does not: for a fetched page with no canonical link
element (here the empty document), `_analyze_canonical` evaluates
`canonical.get("href")` with `canonical = None` and the resulting
`AttributeError` escapes `analyze`, which only catches
`requests.RequestException`. -/
theorem analysis_crashes_without_canonical :
    analyze "https://example.com/" (.success emptyDoc) = .crash := by
  decide

/-- C9: for every fetch failure, `analyze` returns the error dict
an error dict whose single field reads `Failed to fetch URL: <details>` (the `error` constructor
carries only that message) and no exception escapes. -/
theorem fetch_failure_returns_error_value (url msg : String) :
    analyze url (.failure msg) = .error ("Failed to fetch URL: " ++ msg) := by
  rfl

/-- C9 witness: the theorem at a concrete URL and failure detail. -/
theorem fetch_failure_returns_error_value_witness :
    analyze "https://unreachable.invalid/" (.failure "connection refused") =
      .error "Failed to fetch URL: connection refused" := by
  exact fetch_failure_returns_error_value "https://unreachable.invalid/" "connection refused"

/-- C10: analysis is deterministic in the fetched page and target URL: two
runs of `analyze` on the same URL and fetch outcome that produce reports
produce the same report in every modelled field (the embedded `Report` omits
only the `scan_date` timestamp).  Each run analyzes the fresh session its
`SEOTechnicalAnalyzer(url)` construction creates. -/
theorem analyze_idempotent (url : String) (fetch : FetchOutcome) (r₁ r₂ : Report)
    (h₁ : analyze url fetch = .ok r₁) (h₂ : analyze url fetch = .ok r₂) : r₁ = r₂ := by
  have h := h₁.symm.trans h₂
  injection h

/-- A small healthy page: in-range title, meta description element without a
`content` attribute, one `h1`, a canonical link, an empty robots meta, a
viewport meta, and the text `schema.org` in its serialization. -/
def healthyDoc : Document :=
  { emptyDoc with
    title := some "A reasonably long demo page title",
    metaDescription := some none,
    headings := [1],
    canonical := some (some "https://example.com/"),
    robotsMeta := some (some ""),
    serialized := "schema.org",
    viewport := true }

/-- The report `analyze` produces for `healthyDoc` at `https://example.com/`. -/
def healthyReport : Report :=
  generateReport "https://example.com/" [canonicalMissingFinding] [] [schemaInfoNote 0]

/-- C10 witness: the theorem at a concrete URL and document. -/
theorem analyze_idempotent_witness : healthyReport = healthyReport := by
  refine analyze_idempotent "https://example.com/" (.success healthyDoc)
    healthyReport healthyReport ?_ ?_ <;> decide

/-- C4: the length policy of the Title inspector for a present, non-empty title
string `t` (in BeautifulSoup, `soup.title.string` is never the empty string, so
`t ≠ ""` covers every parsed document with a title string): length < 30 gives
exactly the one High "too short" issue, lengths 30–60 inclusive give no
finding, and length > 60 gives exactly the one Medium "too long" issue. -/
theorem title_length_policy (d : Document) (t : String)
    (hd : d.title = some t) (hne : t ≠ "") :
    (t.length < 30 → analyzeTitle d = [titleShortFinding t]) ∧
      (30 ≤ t.length → t.length ≤ 60 → analyzeTitle d = []) ∧
      (60 < t.length → analyzeTitle d = [titleLongFinding t]) ∧
      severityIs "High" (titleShortFinding t) = true ∧
      severityIs "Medium" (titleLongFinding t) = true := by
  refine ⟨?_, ?_, ?_, ?_, ?_⟩
  · intro h
    simp [analyzeTitle, hd, hne, h]
  · intro h30 h60
    simp [analyzeTitle, hd, hne, Nat.not_lt.mpr h30, Nat.not_lt.mpr h60]
  · intro h
    have h30 : ¬ t.length < 30 := by omega
    simp [analyzeTitle, hd, hne, h30, h]
  · rfl
  · rfl

/-- C4 witness: the policy applied to titles of length 11, 30, 60 and 61. -/
theorem title_length_policy_witness :
    analyzeTitle { emptyDoc with title := some "Short title" } =
        [titleShortFinding "Short title"] ∧
      analyzeTitle { emptyDoc with title := some "Title of exactly thirty chars." } = [] ∧
      analyzeTitle { emptyDoc with
        title := some "A ponderous title string made to hit exactly sixty character" } = [] ∧
      analyzeTitle { emptyDoc with
        title := some "A ponderous title string made to reach sixty-one characters.." } =
        [titleLongFinding "A ponderous title string made to reach sixty-one characters.."] := by
  refine ⟨?_, ?_, ?_, ?_⟩
  · exact (title_length_policy _ "Short title" rfl (by decide)).1 (by decide)
  · exact ((title_length_policy _ "Title of exactly thirty chars." rfl
      (by decide)).2.1 (by decide)) (by decide)
  · exact ((title_length_policy _ "A ponderous title string made to hit exactly sixty character" rfl
      (by decide)).2.1 (by decide)) (by decide)
  · exact (title_length_policy _ "A ponderous title string made to reach sixty-one characters.."
      rfl (by decide)).2.2.1 (by decide)

/-- A page whose description meta element carries `content=""`. -/
def emptyDescDoc : Document :=
  { emptyDoc with metaDescription := some (some "") }

/-- C7 counterexample: the claim says a content length below 70 — including
an empty or absent `content` attribute, length 0 — yields a Medium warning.
On the document whose description meta has `content=""` (content length
0 < 70) the inspector appends no finding at all, because the length checks
sit under `elif meta_desc.get("content"):` and `""` is falsy. -/
theorem meta_description_empty_content_no_finding :
    emptyDescDoc.metaDescription = some (some "") ∧
      ("" : String).length < 70 ∧
      analyzeMetaDescription emptyDescDoc = ([], []) := by
  decide

/-- C7 amended: for a document with a description meta element, an absent or
empty `content` attribute yields no finding; a present non-empty content of
length < 70 yields the one Medium "too short" warning, length > 155 the one
Low "too long" warning, and lengths 70–155 nothing. -/
theorem meta_description_policy (d : Document) (c : Option String)
    (hd : d.metaDescription = some c) :
    ((c = none ∨ c = some "") → analyzeMetaDescription d = ([], [])) ∧
      (∀ s : String, c = some s → s ≠ "" →
        (s.length < 70 → analyzeMetaDescription d = ([], [descShortFinding s.length])) ∧
          (70 ≤ s.length → s.length ≤ 155 → analyzeMetaDescription d = ([], [])) ∧
          (155 < s.length → analyzeMetaDescription d = ([], [descLongFinding s.length]))) ∧
      (∀ n : Nat, severityIs "Medium" (descShortFinding n) = true) ∧
      (∀ n : Nat, severityIs "Low" (descLongFinding n) = true) := by
  refine ⟨?_, ?_, fun n => rfl, fun n => rfl⟩
  · rintro (rfl | rfl) <;> simp [analyzeMetaDescription, hd]
  · rintro s rfl hne
    refine ⟨?_, ?_, ?_⟩
    · intro h
      simp [analyzeMetaDescription, hd, hne, h]
    · intro h70 h155
      simp [analyzeMetaDescription, hd, hne, Nat.not_lt.mpr h70, Nat.not_lt.mpr h155]
    · intro h
      have h70 : ¬ s.length < 70 := by omega
      simp [analyzeMetaDescription, hd, hne, h70, h]

/-- C7 amended witness: the policy applied to a description of length 25. -/
theorem meta_description_policy_witness :
    analyzeMetaDescription { emptyDoc with
        metaDescription := some (some "Short description text...") } =
      ([], [descShortFinding 25]) := by
  exact ((meta_description_policy _ (some "Short description text...") rfl).2.1
    "Short description text..." rfl (by decide)).1 (by decide)

/-- The number of adjacent level increases of more than one step in a heading
level sequence, scanning with a virtual previous level 0 at the front. -/
def countLevelSkips (hs : List Nat) : Nat :=
  ((0 :: hs).zip hs).countP fun p => p.1 + 1 < p.2

/-- The skip warnings the claim describes: the per-step scan of the inspector
applied to the headings of the document in document order. -/
def specDocumentOrderSkips (d : Document) : List Finding :=
  headingScan 0 d.headings

theorem headingScan_length (hs : List Nat) :
    ∀ prev, (headingScan prev hs).length =
      ((prev :: hs).zip hs).countP fun p => p.1 + 1 < p.2 := by
  induction hs with
  | nil => intro prev; simp [headingScan]
  | cons cur rest ih =>
      intro prev
      by_cases h : prev + 1 < cur <;>
        simp [headingScan, h, ih cur, List.countP_cons]

theorem headingScan_impact (hs : List Nat) :
    ∀ prev f, f ∈ headingScan prev hs → f.impact = skipImpact := by
  induction hs with
  | nil => intro prev f hf; simp [headingScan] at hf
  | cons cur rest ih =>
      intro prev f hf
      rw [headingScan, List.mem_append] at hf
      rcases hf with hf | hf
      · by_cases h : prev + 1 < cur
        · rw [if_pos h, List.mem_singleton] at hf
          rw [hf]
          rfl
        · rw [if_neg h] at hf
          exact absurd hf (List.not_mem_nil f)
      · exact ih cur f hf

/-- C5 counterexample: for the document whose headings appear in document
order H1, H3, H2 there is exactly one document-order skip (H1 directly to
H3), so the claim requires one Medium warning — but the inspector, which
scans `find_all("h1")`, then `find_all("h2")`, … (so the level-sorted
sequence H1, H2, H3), emits no warning at all. -/
theorem heading_skips_not_document_order :
    ({ emptyDoc with headings := [1, 3, 2] } : Document).headings = [1, 3, 2] ∧
      specDocumentOrderSkips { emptyDoc with headings := [1, 3, 2] } =
        [skipFinding 1 3] ∧
      (analyzeHeadings { emptyDoc with headings := [1, 3, 2] }).2 = [] := by
  decide

/-- C5 amended: the Headings inspector emits one Medium warning per
heading-level skip of more than one step, scanning the headings grouped by
level — all H1s (in document order), then all H2s, …, then all H6s, a virtual
level 0 before the first — not in overall document order. -/
theorem headings_skip_warnings_grouped (d : Document) :
    (((analyzeHeadings d).2.filter fun f => f.impact = skipImpact).length =
        countLevelSkips (groupedHeadings d.headings)) ∧
      ((analyzeHeadings d).2.filter fun f => f.impact = skipImpact).all
        (fun f => severityIs "Medium" f) = true := by
  have h2 : (analyzeHeadings d).2 =
      (if 1 < ((groupedHeadings d.headings).filter fun l => l = 1).length
        then [multiH1Finding ((groupedHeadings d.headings).filter fun l => l = 1).length]
        else []) ++ headingScan 0 (groupedHeadings d.headings) := rfl
  have hmulti : ∀ n : Nat, (decide ((multiH1Finding n).impact = skipImpact)) = false :=
    fun n => rfl
  have hscan : (headingScan 0 (groupedHeadings d.headings)).filter
      (fun f => f.impact = skipImpact) = headingScan 0 (groupedHeadings d.headings) := by
    refine List.filter_eq_self.mpr fun f hf => ?_
    rw [headingScan_impact _ _ _ hf]
    exact decide_eq_true rfl
  have hleft : (if 1 < ((groupedHeadings d.headings).filter fun l => l = 1).length
      then [multiH1Finding ((groupedHeadings d.headings).filter fun l => l = 1).length]
      else []).filter (fun f => f.impact = skipImpact) = [] := by
    split
    · simp [List.filter_cons, hmulti]
    · rfl
  constructor
  · rw [h2, List.filter_append, hscan, hleft, List.nil_append, headingScan_length]
    rfl
  · rw [List.all_eq_true]
    intro f hf
    rw [List.mem_filter] at hf
    have himp : f.impact = skipImpact := of_decide_eq_true hf.2
    rw [severityIs, himp]
    decide

/-- The case-insensitive substring test that the claim describes. -/
def pyInCI (needle hay : String) : Bool :=
  pyIn (pyLower needle) (pyLower hay)

/-- A page with no ld+json scripts whose serialization contains the text
`SCHEMA.ORG` (uppercase) and nothing else. -/
def upperSchemaDoc : Document :=
  { emptyDoc with serialized := "SCHEMA.ORG" }

/-- C6 counterexample: the claim says a document with no ld+json scripts
whose serialization contains "schema.org" case-insensitively (such as the one
containing only the uppercase text `SCHEMA.ORG`) gets the info note, not the
warning.  The test `"schema.org" in str(self.soup)` in the code is case-sensitive,
so this document gets the Medium warning and no info note. -/
theorem schema_match_case_sensitive :
    upperSchemaDoc.ldJsonCount = 0 ∧
      pyInCI "schema.org" upperSchemaDoc.serialized = true ∧
      analyzeSchema upperSchemaDoc = ([schemaWarnFinding], []) ∧
      severityIs "Medium" schemaWarnFinding = true := by
  decide

/-- C6 amended: the Structured Data inspector emits the Medium warning
exactly when the document has no `application/ld+json` scripts and the
serialized document contains no case-SENSITIVE substring "schema.org";
otherwise it emits the info note with the ld+json script count. -/
theorem schema_warning_condition (d : Document) :
    analyzeSchema d =
      if d.ldJsonCount = 0 ∧ pyIn "schema.org" d.serialized = false
      then ([schemaWarnFinding], [])
      else ([], [schemaInfoNote d.ldJsonCount]) := by
  by_cases hc : d.ldJsonCount = 0 <;>
    cases hpy : pyIn "schema.org" d.serialized <;>
      simp [analyzeSchema, hc, hpy]

/-! Which `impact` strings each inspector can append to `self.issues`. -/

theorem analyzeTitle_impact {d : Document} {f : Finding}
    (h : f ∈ analyzeTitle d) : f.impact ∈ issueImpacts := by
  cases htitle : d.title with
  | none =>
      simp only [analyzeTitle, htitle, List.mem_singleton] at h
      subst h
      decide
  | some t =>
      simp only [analyzeTitle, htitle] at h
      split_ifs at h <;>
        first
          | exact absurd h (List.not_mem_nil f)
          | (rw [List.mem_singleton] at h; subst h;
             simp [issueImpacts, titleMissingFinding, titleShortFinding, titleLongFinding])

theorem analyzeMetaDescription_impact {d : Document} {f : Finding}
    (h : f ∈ (analyzeMetaDescription d).1) : f.impact ∈ issueImpacts := by
  cases hmeta : d.metaDescription with
  | none =>
      simp only [analyzeMetaDescription, hmeta, List.mem_singleton] at h
      subst h
      decide
  | some contentAttr =>
      cases contentAttr with
      | none => simp [analyzeMetaDescription, hmeta] at h
      | some c =>
          simp only [analyzeMetaDescription, hmeta] at h
          split_ifs at h <;> simp at h

theorem analyzeHeadings_impact {d : Document} {f : Finding}
    (h : f ∈ (analyzeHeadings d).1) : f.impact ∈ issueImpacts := by
  simp only [analyzeHeadings] at h
  split_ifs at h <;>
    first
      | (rw [List.mem_singleton] at h; subst h; decide)
      | exact absurd h (List.not_mem_nil f)

theorem analyzeImages_impact {d : Document} {f : Finding}
    (h : f ∈ analyzeImages d) : f.impact ∈ issueImpacts := by
  simp only [analyzeImages, List.mem_append] at h
  rcases h with h | h <;>
    · split_ifs at h <;>
        first
          | exact absurd h (List.not_mem_nil f)
          | (rw [List.mem_singleton] at h; subst h;
             simp [issueImpacts, altMissingFinding, largeImagesFinding])

theorem analyzeCanonical_impact {d : Document} {canon : List Finding × List Finding}
    {f : Finding} (hc : analyzeCanonical d = some canon) (h : f ∈ canon.1) :
    f.impact ∈ issueImpacts := by
  cases hcan : d.canonical with
  | none => rw [analyzeCanonical, hcan] at hc; exact absurd hc (by simp)
  | some href =>
      rw [analyzeCanonical, hcan, Option.some.injEq] at hc
      rw [← hc, List.mem_singleton] at h
      subst h
      decide

theorem analyzeRobots_impact {d : Document} {f : Finding}
    (h : f ∈ (analyzeRobots d).1) : f.impact ∈ issueImpacts := by
  cases hrob : d.robotsMeta.or d.googlebotMeta with
  | none => simp [analyzeRobots, hrob] at h
  | some contentAttr =>
      simp only [analyzeRobots, hrob] at h
      split_ifs at h <;>
        first
          | (rw [List.mem_singleton] at h; subst h; decide)
          | exact absurd h (List.not_mem_nil f)

theorem analyzeMobile_impact {d : Document} {f : Finding}
    (h : f ∈ analyzeMobile d) : f.impact ∈ issueImpacts := by
  simp only [analyzeMobile] at h
  split_ifs at h
  · exact absurd h (List.not_mem_nil f)
  · rw [List.mem_singleton] at h
    subst h
    decide

theorem analyzeSsl_impact {url : String} {f : Finding}
    (h : f ∈ analyzeSsl url) : f.impact ∈ issueImpacts := by
  simp only [analyzeSsl] at h
  split_ifs at h
  · exact absurd h (List.not_mem_nil f)
  · rw [List.mem_singleton] at h
    subst h
    decide

/-- Every finding the inspector pass puts into `self.issues` carries one of
the eleven issue `impact` strings. -/
theorem issues_impact {url : String} {d : Document} {issues warnings : List Finding}
    {info : List InfoNote} (h : runInspectors url d = some (issues, warnings, info)) :
    ∀ f ∈ issues, f.impact ∈ issueImpacts := by
  intro f hf
  rcases hcanon : analyzeCanonical d with _ | canon
  · rw [runInspectors, hcanon] at h
    exact absurd h (by simp)
  · rw [runInspectors, hcanon, Option.some.injEq, Prod.mk.injEq] at h
    obtain ⟨hi, -⟩ := h
    rw [← hi] at hf
    simp only [List.mem_append] at hf
    rcases hf with ((((((hf | hf) | hf) | hf) | hf) | hf) | hf) | hf
    · exact analyzeTitle_impact hf
    · exact analyzeMetaDescription_impact hf
    · exact analyzeHeadings_impact hf
    · exact analyzeImages_impact hf
    · exact analyzeCanonical_impact hcanon hf
    · exact analyzeRobots_impact hf
    · exact analyzeMobile_impact hf
    · exact analyzeSsl_impact hf

/-- On the eleven issue `impact` strings, the substring tests used by
`_generate_report` agree with the leading severity label, and no string
matches both "Critical" and "High". -/
theorem impacts_classified :
    ∀ s ∈ issueImpacts,
      (pyIn "Critical" s = pyStartsWith s ("Critical" ++ " - ")) ∧
        (pyIn "High" s = pyStartsWith s ("High" ++ " - ")) ∧
        ¬(pyIn "Critical" s = true ∧ pyIn "High" s = true) := by
  decide

/-- C8: for every report the report builder produces from an inspector pass,
`critical_issues` is exactly the severity-Critical filter of the issues and
`high_impact_issues` exactly the severity-High filter (hence each is a
subsequence of the corresponding severity class), both are order-preserving
sublists of the original `issues` accumulator, and the two lists are
disjoint. -/
theorem report_issue_views (url : String) (d : Document)
    (issues warnings : List Finding) (info : List InfoNote)
    (h : runInspectors url d = some (issues, warnings, info)) :
    ((generateReport url issues warnings info).critical_issues =
        issues.filter fun f => severityIs "Critical" f) ∧
      ((generateReport url issues warnings info).high_impact_issues =
        issues.filter fun f => severityIs "High" f) ∧
      (generateReport url issues warnings info).critical_issues.Sublist issues ∧
      (generateReport url issues warnings info).high_impact_issues.Sublist issues ∧
      ∀ f ∈ (generateReport url issues warnings info).critical_issues,
        f ∉ (generateReport url issues warnings info).high_impact_issues := by
  have himp := issues_impact h
  have hcrit : (generateReport url issues warnings info).critical_issues =
      issues.filter fun f => severityIs "Critical" f := by
    refine List.filter_congr fun f hf => ?_
    exact (impacts_classified f.impact (himp f hf)).1
  have hhigh : (generateReport url issues warnings info).high_impact_issues =
      issues.filter fun f => severityIs "High" f := by
    refine List.filter_congr fun f hf => ?_
    exact (impacts_classified f.impact (himp f hf)).2.1
  refine ⟨hcrit, hhigh, List.filter_sublist issues, List.filter_sublist issues, ?_⟩
  intro f hfc hfh
  simp only [generateReport] at hfc hfh
  rw [List.mem_filter] at hfc hfh
  exact (impacts_classified f.impact (himp f hfc.1)).2.2 ⟨hfc.2, hfh.2⟩

/-- C8 witness: the theorem at `healthyDoc`, whose inspector pass yields one
High issue, no warnings and one info note. -/
theorem report_issue_views_witness :
    (generateReport "https://example.com/" [canonicalMissingFinding] []
        [schemaInfoNote 0]).critical_issues =
      [canonicalMissingFinding].filter fun f => severityIs "Critical" f :=
  (report_issue_views "https://example.com/" healthyDoc [canonicalMissingFinding] []
    [schemaInfoNote 0] (by decide)).1

/-- No character of an all-`'a'` page can start the needle `schema.org`. -/
theorem schema_not_in_replicate (n : Nat) :
    listContains ("schema.org".data) (List.replicate n 'a') = false := by
  induction n with
  | zero => decide
  | succ k ih =>
      rw [List.replicate_succ]
      simp only [listContains, ih, Bool.or_false]
      simp only [listPrefixOf]
      rw [show (('s' == 'a') : Bool) = false from by decide]
      exact Bool.false_and _

/-- A 5000-byte serialized page of filler text (no "schema.org" in it). -/
def scenarioSerialized : String := String.mk (List.replicate 5000 'a')

theorem pyIn_scenario : pyIn "schema.org" scenarioSerialized = false := by
  rw [pyIn]
  rw [show scenarioSerialized.data = List.replicate 5000 'a' from rfl]
  exact schema_not_in_replicate 5000

theorem scenario_length : scenarioSerialized.length = 5000 := by
  rw [show scenarioSerialized.length = (List.replicate 5000 'a').length from rfl]
  exact List.length_replicate 5000 'a'

def scenarioUrl : String := "https://example.com/page"

/-- The end-to-end scenario document of C3: no title, no meta description,
headings H1→H2→H3 in document order, one alt-tagged image, canonical `href`
identical to the target URL, no robots meta, one ld+json script, page size
5000 bytes, viewport meta present; analyzed URL starts with "https". -/
def scenarioDoc : Document :=
  { emptyDoc with
    headings := [1, 2, 3],
    images := [{ src := some "hero.png", alt := some "hero image",
                 width := none, height := none }],
    canonical := some (some "https://example.com/page"),
    ldJsonCount := 1,
    serialized := scenarioSerialized,
    viewport := true }

/-- C3: on the end-to-end scenario document the claim expects exactly 2
issues (missing title Critical, missing meta description High), 1 warning
(missing robots meta Low) and 1 info note (ld+json count 1).  The code
instead produces 3 issues: the inverted canonical branch appends a spurious
High "Missing canonical tag" issue although the canonical link is present
with `href` identical to the target URL.  Warnings and info match the claim. -/
theorem scenario_report :
    analyze scenarioUrl (.success scenarioDoc) =
      .ok { report := "SEO Technical Analysis Report for https://example.com/page ",
            url := "https://example.com/page",
            critical_issues := [titleMissingFinding],
            high_impact_issues := [metaDescMissingFinding, canonicalMissingFinding],
            warnings := [robotsMissingFinding],
            info := [schemaInfoNote 1],
            total_issues := 3,
            total_warnings := 1 } := by
  have hser : scenarioDoc.serialized = scenarioSerialized := rfl
  have hs : analyzeSchema scenarioDoc = ([], [schemaInfoNote 1]) := by
    simp only [analyzeSchema, hser, pyIn_scenario]
    rfl
  have hp : analyzePerformance scenarioDoc = [] := by
    simp only [analyzePerformance, hser, scenario_length]
    rfl
  have hrun : runInspectors scenarioUrl scenarioDoc =
      some ([titleMissingFinding, metaDescMissingFinding, canonicalMissingFinding],
            [robotsMissingFinding], [schemaInfoNote 1]) := by
    rw [runInspectors, show analyzeCanonical scenarioDoc =
      some ([canonicalMissingFinding], []) from by decide]
    simp only [hs, hp]
    decide
  simp only [analyze, hrun]
  rfl
